import Mathlib

/-!
Verification of the snowflake-id generator (src/common.rs, src/decompose.rs,
src/single_thread.rs, src/multi_thread.rs).

The Rust code is embedded shallowly:
* `i64` values are `Int`; wrapping operations reduce modulo `2 ^ 64` explicitly.
* `u16` values are `Nat`; the `u16` increment of the sequence counter wraps
  modulo `2 ^ 16` explicitly.
* The clock (`Instant` / `SystemTime`) is external input: each call to
  `generate_id` receives the value that `get_time_since_epoch()` would return
  at entry, and the value it would return after the 1 ms rollover sleep.
-/

deriving instance DecidableEq for Except

/-- Errors of the generator (src/common.rs, `SnowflakeError`). -/
inductive SnowflakeError where
  | TimeBeforeUnixEpoch
  | WorkerIdOutOfRange
  | EpochInFuture
  | PoisonError
  deriving DecidableEq, Repr

/-- Generator state (src/common.rs, `SnowflakeState`).  The Rust field
`instant : std::time::Instant` is the monotonic anchor whose elapsed reading
enters the model through the clock arguments of `generateId`; the remaining
fields are kept verbatim. -/
structure SnowflakeState where
  time_since_epoch : Int
  worker_id : Nat
  sequence : Nat
  epoch : Int
  instant_timestamp : Int
  deriving DecidableEq, Repr

/-- Two's-complement 64-bit pattern of an `i64` value. -/
def u64ofInt (x : Int) : Nat := (x % (2 : Int) ^ 64).toNat

/-- src/common.rs, `SnowflakeState::to_i64`:
`((time_since_epoch << 22) | ((worker_id as i64) << 12) | (sequence as i64)) & 0x7FFFFFFFFFFFFFFF`.
The `i64` left shift discards bits shifted past position 63, hence the
reduction modulo `2 ^ 64` of the shifted bit pattern; the final mask clears
the sign bit, so the masked pattern is the value of the resulting `i64`. -/
def SnowflakeState.to_i64 (s : SnowflakeState) : Int :=
  (((u64ofInt s.time_since_epoch <<< 22) % 2 ^ 64 ||| s.worker_id <<< 12 ||| s.sequence)
    &&& 0x7FFFFFFFFFFFFFFF : Nat)

/-- src/common.rs, `SnowflakeState::new`.  `reading` is the outcome of the
wall-clock read `SystemTime::now().duration_since(UNIX_EPOCH)` in
milliseconds; `none` models the failed read (system time before the Unix
epoch). -/
def SnowflakeState.new (epoch : Int) (worker_id : Nat) (reading : Option Int) :
    Except SnowflakeError SnowflakeState :=
  if worker_id > 0x3FF then .error .WorkerIdOutOfRange
  else
    match reading with
    | none => .error .TimeBeforeUnixEpoch
    | some now =>
      if now < epoch then .error .EpochInFuture
      else .ok { time_since_epoch := now - epoch, instant_timestamp := now,
                 worker_id := worker_id, epoch := epoch, sequence := 0 }

/-- src/common.rs, `SnowflakeState::generate_id`.  `t` is the value of
`get_time_since_epoch()` read at entry and `t'` the value re-read after the
1 ms sleep of the rollover branch (the sleep has no other observable effect
on the state).  Returns the generated identifier together with the updated
state; the `u16` increment of `sequence` wraps modulo `2 ^ 16`. -/
def SnowflakeState.generateId (s : SnowflakeState) (t t' : Int) :
    Int × SnowflakeState :=
  let s1 :=
    if s.time_since_epoch = t then
      if s.sequence > 0xFFF then
        { s with time_since_epoch := t', sequence := 0 }
      else s
    else { s with time_since_epoch := t, sequence := 0 }
  (s1.to_i64, { s1 with sequence := (s1.sequence + 1) % 2 ^ 16 })

/-- Decomposed identifier (src/decompose.rs, `SnowflakeDecomposed`). -/
structure SnowflakeDecomposed where
  timestamp : Int
  worker_id : Nat
  sequence : Nat
  deriving DecidableEq, Repr

/-- Error of the decoder (src/decompose.rs, `SnowflakeDecomposeError`). -/
inductive SnowflakeDecomposeError where
  | SignBitError
  deriving DecidableEq, Repr

/-- Reduction of an integer to the `i64` range, used for the wrapping `i64`
addition in the decoder. -/
def wrap64 (x : Int) : Int := (x + 2 ^ 63) % 2 ^ 64 - 2 ^ 63

/-- src/decompose.rs, `decompose_snowflake`.  For the non-negative
identifiers that pass the sign check the Rust arithmetic right shift agrees
with the shift on the underlying natural number; `+ epoch` is `i64` addition,
hence `wrap64`. -/
def decompose_snowflake (id epoch : Int) :
    Except SnowflakeDecomposeError SnowflakeDecomposed :=
  if id < 0 then .error .SignBitError
  else
    .ok { timestamp := wrap64 ((id.toNat >>> 22 : Nat) + epoch),
          worker_id := (id.toNat >>> 12) &&& 0x3FF,
          sequence := id.toNat &&& 0xFFF }

example : decompose_snowflake 4096 0 =
    .ok { timestamp := 0, worker_id := 1, sequence := 0 } := by decide

example : (SnowflakeState.new 0 1 (some 7)).map (fun s => (s.generateId 7 7).1)
    = .ok ((7 * 2 ^ 22 + 1 * 2 ^ 12 : Nat) : Int) := by decide

/-- Modelled from the spec (§4.1 GenerateId): the step function the spec
describes for `generate_id` — same millisecond with the sequence exhausted
(`sequence > 4095`) blocks about 1 ms, re-reads the clock (`t'`), stores the
new reading and resets the sequence; same millisecond otherwise leaves
`last_timestamp` unchanged; any other reading is stored with the sequence
reset; the identifier is then composed from
`(last_timestamp, worker_id, sequence)` and the sequence incremented. -/
def generateIdSpecModel (s : SnowflakeState) (t t' : Int) :
    Int × SnowflakeState :=
  let last :=
    if s.time_since_epoch = t then
      if s.sequence > 4095 then t' else s.time_since_epoch
    else t
  let seq :=
    if s.time_since_epoch = t then
      if s.sequence > 4095 then 0 else s.sequence
    else 0
  let composed : SnowflakeState :=
    { s with time_since_epoch := last, sequence := seq }
  (composed.to_i64, { s with time_since_epoch := last, sequence := (seq + 1) % 2 ^ 16 })

/-- src/single_thread.rs, `sync_generator::SnowflakeGenerator::generate_id`:
borrows the shared cell mutably and calls through to the core. -/
def singleOwnerGenerateId (s : SnowflakeState) (t t' : Int) :
    Int × SnowflakeState :=
  s.generateId t t'

/-- src/multi_thread.rs, `MultiThreadedAsyncGenerator::generate_id`: awaits
the task-shared mutex and calls through to the core. -/
def taskSharedGenerateId (s : SnowflakeState) (t t' : Int) :
    Int × SnowflakeState :=
  s.generateId t t'

/-- src/multi_thread.rs, `MultiThreadedSyncGenerator::generate_id`: locks the
thread-shared mutex, mapping a poisoned lock to `PoisonError`, and calls
through to the core.  `poisoned` records whether a prior panic poisoned the
lock. -/
def threadSharedGenerateId (poisoned : Bool) (s : SnowflakeState) (t t' : Int) :
    Except SnowflakeError (Int × SnowflakeState) :=
  if poisoned then .error .PoisonError else .ok (s.generateId t t')

/-- Modelled from the spec (§4.2): the `decompose(id)` pass-through method
each adapter exposes.  The adapter methods themselves are referenced only by
src/tests.rs and are not under src/; per the spec they forward the identifier
and the generator's epoch to the decoder. -/
def adapterDecompose (s : SnowflakeState) (id : Int) :
    Except SnowflakeDecomposeError SnowflakeDecomposed :=
  decompose_snowflake id s.epoch

/-- Generator states reachable from a successful construction by any number
of `generateId` calls with arbitrary clock readings. -/
inductive Reachable : SnowflakeState → Prop where
  | constructed (epoch : Int) (worker_id : Nat) (reading : Option Int)
      (s : SnowflakeState) :
      SnowflakeState.new epoch worker_id reading = .ok s → Reachable s
  | step (s : SnowflakeState) (t t' : Int) :
      Reachable s → Reachable (s.generateId t t').2

/-- The state constructed by `new 0 0 (some 0)`: epoch 0, worker 0, first
wall-clock reading 0. -/
def initialDemoState : SnowflakeState :=
  { time_since_epoch := 0, worker_id := 0, sequence := 0, epoch := 0,
    instant_timestamp := 0 }

/-- One `generateId` call under a clock stuck at reading 0 (every call lands
in the same millisecond as construction). -/
def genStep (s : SnowflakeState) : SnowflakeState := (s.generateId 0 0).2

/-- The state after `n` calls under the stuck clock. -/
def genStepN : Nat → SnowflakeState
  | 0 => initialDemoState
  | n + 1 => genStep (genStepN n)

example : SnowflakeState.new 0 0 (some 0) = .ok initialDemoState := by decide
example : (genStepN 3).sequence = 3 := by decide

/-! ### Branch lemmas for `generateId` -/

theorem generateId_rollover (s : SnowflakeState) (t t' : Int)
    (h1 : s.time_since_epoch = t) (h2 : 4095 < s.sequence) :
    s.generateId t t' =
      (({ s with time_since_epoch := t', sequence := 0 } : SnowflakeState).to_i64,
       { s with time_since_epoch := t', sequence := 1 }) := by
  have hgt : s.sequence > 0xFFF := h2
  simp only [SnowflakeState.generateId, h1, hgt]
  norm_num

theorem generateId_same (s : SnowflakeState) (t t' : Int)
    (h1 : s.time_since_epoch = t) (h2 : s.sequence ≤ 4095) :
    s.generateId t t' = (s.to_i64, { s with sequence := s.sequence + 1 }) := by
  have hng : ¬ s.sequence > 0xFFF := by omega
  have hm : (s.sequence + 1) % 2 ^ 16 = s.sequence + 1 :=
    Nat.mod_eq_of_lt (by omega)
  simp only [SnowflakeState.generateId, h1, hng, if_true, if_false, ite_false,
    ite_true, eq_self_iff_true, hm]

theorem generateId_advance (s : SnowflakeState) (t t' : Int)
    (h1 : s.time_since_epoch ≠ t) :
    s.generateId t t' =
      (({ s with time_since_epoch := t, sequence := 0 } : SnowflakeState).to_i64,
       { s with time_since_epoch := t, sequence := 1 }) := by
  simp only [SnowflakeState.generateId, h1]
  norm_num

/-! ### Arithmetic characterisation of `to_i64` -/

theorem u64ofInt_of_nonneg {x : Int} (h0 : 0 ≤ x) (h1 : x < 2 ^ 64) :
    u64ofInt x = x.toNat := by
  unfold u64ofInt
  rw [Int.emod_eq_of_lt h0 h1]

/-- Within the 41-bit timestamp range the composition is exact arithmetic:
no bits are shifted out and the sign-bit mask is the identity. -/
theorem to_i64_eq_of_bounds (s : SnowflakeState)
    (h0 : 0 ≤ s.time_since_epoch) (h1 : s.time_since_epoch < 2 ^ 41)
    (hw : s.worker_id ≤ 1023) (hc : s.sequence ≤ 4095) :
    s.to_i64 =
      ((s.time_since_epoch.toNat * 2 ^ 22 + s.worker_id * 2 ^ 12 + s.sequence : Nat) : Int) := by
  have h64 : s.time_since_epoch < 2 ^ 64 := by
    have : (2 : Int) ^ 41 < 2 ^ 64 := by norm_num
    omega
  have ha : s.time_since_epoch.toNat < 2 ^ 41 := by
    have : (2 : Int) ^ 41 = 2199023255552 := by norm_num
    omega
  unfold SnowflakeState.to_i64
  rw [u64ofInt_of_nonneg h0 h64, Nat.shiftLeft_eq, Nat.shiftLeft_eq]
  set a := s.time_since_epoch.toNat with hadef
  have hmod : a * 2 ^ 22 % 2 ^ 64 = a * 2 ^ 22 := by
    apply Nat.mod_eq_of_lt
    calc a * 2 ^ 22 < 2 ^ 41 * 2 ^ 22 :=
          Nat.mul_lt_mul_of_lt_of_le ha (Nat.le_refl _) (by norm_num)
      _ ≤ 2 ^ 64 := by norm_num
  rw [hmod]
  have hb1 : s.worker_id * 2 ^ 12 < 2 ^ 22 := by
    calc s.worker_id * 2 ^ 12 ≤ 1023 * 2 ^ 12 := Nat.mul_le_mul_right _ hw
      _ < 2 ^ 22 := by norm_num
  have e1 : a * 2 ^ 22 ||| s.worker_id * 2 ^ 12
      = a * 2 ^ 22 + s.worker_id * 2 ^ 12 := by
    calc a * 2 ^ 22 ||| s.worker_id * 2 ^ 12
        = 2 ^ 22 * a ||| s.worker_id * 2 ^ 12 := by rw [Nat.mul_comm]
      _ = 2 ^ 22 * a + s.worker_id * 2 ^ 12 := (Nat.mul_add_lt_is_or hb1 a).symm
      _ = a * 2 ^ 22 + s.worker_id * 2 ^ 12 := by rw [Nat.mul_comm]
  rw [e1]
  have hb2 : s.sequence < 2 ^ 12 := by omega
  have e2 : a * 2 ^ 22 + s.worker_id * 2 ^ 12 ||| s.sequence
      = a * 2 ^ 22 + s.worker_id * 2 ^ 12 + s.sequence := by
    have hr : a * 2 ^ 22 + s.worker_id * 2 ^ 12
        = 2 ^ 12 * (a * 2 ^ 10 + s.worker_id) := by ring
    rw [hr, ← Nat.mul_add_lt_is_or hb2]
  rw [e2]
  have hlt : a * 2 ^ 22 + s.worker_id * 2 ^ 12 + s.sequence < 2 ^ 63 := by
    have p22 : (2 : Nat) ^ 22 = 4194304 := by norm_num
    have p12 : (2 : Nat) ^ 12 = 4096 := by norm_num
    have p41 : (2 : Nat) ^ 41 = 2199023255552 := by norm_num
    have p63 : (2 : Nat) ^ 63 = 9223372036854775808 := by norm_num
    rw [p22, p12, p63]
    rw [p41] at ha
    omega
  have hmask : (0x7FFFFFFFFFFFFFFF : Nat) = 2 ^ 63 - 1 := by norm_num
  rw [hmask, Nat.and_pow_two_sub_one_of_lt_two_pow hlt]

/-- Every call composes its identifier from some timestamp `a` and a
sequence value `c ≤ 4095`, and stores `a` and `c + 1` back. -/
theorem generateId_shape (s : SnowflakeState) (t t' : Int) :
    ∃ (a : Int) (c : Nat), (a = t' ∨ a = s.time_since_epoch ∨ a = t) ∧ c ≤ 4095 ∧
      s.generateId t t' =
        (({ s with time_since_epoch := a, sequence := c } : SnowflakeState).to_i64,
         { s with time_since_epoch := a, sequence := c + 1 }) := by
  by_cases e : s.time_since_epoch = t
  · by_cases r : 4095 < s.sequence
    · exact ⟨t', 0, Or.inl rfl, by omega, by rw [generateId_rollover s t t' e r]⟩
    · exact ⟨s.time_since_epoch, s.sequence, Or.inr (Or.inl rfl), by omega,
        by rw [generateId_same s t t' e (by omega)]⟩
  · exact ⟨t, 0, Or.inr (Or.inr rfl), by omega, by rw [generateId_advance s t t' e]⟩

theorem generateId_sequence_le (s : SnowflakeState) (t t' : Int) :
    (s.generateId t t').2.sequence ≤ 4096 := by
  obtain ⟨a, c, _, hc, heq⟩ := generateId_shape s t t'
  rw [heq]
  simpa using by omega

theorem to_i64_nonneg (s : SnowflakeState) : 0 ≤ s.to_i64 :=
  Int.natCast_nonneg _

theorem to_i64_lt_two_pow (s : SnowflakeState) : s.to_i64 < 2 ^ 63 := by
  unfold SnowflakeState.to_i64
  have hm : (0x7FFFFFFFFFFFFFFF : Nat) = 2 ^ 63 - 1 := by norm_num
  have h : ((u64ofInt s.time_since_epoch <<< 22) % 2 ^ 64 ||| s.worker_id <<< 12
      ||| s.sequence) &&& 0x7FFFFFFFFFFFFFFF < 2 ^ 63 := by
    rw [hm]
    exact Nat.and_lt_two_pow _ (by norm_num)
  exact_mod_cast h

/-- The low 12 bits of a composed identifier are exactly the composed
sequence value whenever that value is in range. -/
theorem to_i64_low_bits (s : SnowflakeState) (hc : s.sequence ≤ 4095) :
    s.to_i64.toNat &&& 0xFFF = s.sequence := by
  unfold SnowflakeState.to_i64
  rw [Int.toNat_natCast]
  have hm1 : ((u64ofInt s.time_since_epoch <<< 22) % 2 ^ 64 ||| s.worker_id <<< 12
      ||| s.sequence) &&& 0x7FFFFFFFFFFFFFFF &&& 0xFFF
      = ((u64ofInt s.time_since_epoch <<< 22) % 2 ^ 64 ||| s.worker_id <<< 12
      ||| s.sequence) &&& 0xFFF := by
    rw [Nat.and_assoc]
    congr 1
  rw [hm1]
  have hfff : (0xFFF : Nat) = 2 ^ 12 - 1 := by norm_num
  rw [hfff, Nat.and_distrib_right, Nat.and_distrib_right,
    Nat.and_pow_two_sub_one_eq_mod, Nat.and_pow_two_sub_one_eq_mod,
    Nat.and_pow_two_sub_one_eq_mod]
  have hA : (u64ofInt s.time_since_epoch <<< 22) % 2 ^ 64 % 2 ^ 12 = 0 := by
    rw [Nat.mod_mod_of_dvd _ (by norm_num : (2 : Nat) ^ 12 ∣ 2 ^ 64)]
    rw [Nat.shiftLeft_eq]
    have : u64ofInt s.time_since_epoch * 2 ^ 22
        = u64ofInt s.time_since_epoch * 2 ^ 10 * 2 ^ 12 := by ring
    rw [this, Nat.mul_mod_left]
  have hB : s.worker_id <<< 12 % 2 ^ 12 = 0 := by
    rw [Nat.shiftLeft_eq, Nat.mul_mod_left]
  have hC : s.sequence % 2 ^ 12 = s.sequence := Nat.mod_eq_of_lt (by omega)
  rw [hA, hB, hC]
  simp

/-- Strict monotonicity of the exact composition. -/
theorem composeNat_lt {a1 w1 c1 a2 w2 c2 : Nat}
    (hw1 : w1 ≤ 1023) (hc1 : c1 ≤ 4095)
    (h : a1 < a2 ∨ (a1 = a2 ∧ w1 = w2 ∧ c1 < c2)) :
    a1 * 2 ^ 22 + w1 * 2 ^ 12 + c1 < a2 * 2 ^ 22 + w2 * 2 ^ 12 + c2 := by
  have p22 : (2 : Nat) ^ 22 = 4194304 := by norm_num
  have p12 : (2 : Nat) ^ 12 = 4096 := by norm_num
  rw [p22, p12]
  rcases h with h | ⟨rfl, rfl, h⟩
  · omega
  · omega

theorem wrap64_eq_self {x : Int} (h0 : -(2 ^ 63) ≤ x) (h1 : x < 2 ^ 63) :
    wrap64 x = x := by
  unfold wrap64
  have p63 : (2 : Int) ^ 63 = 9223372036854775808 := by norm_num
  have p64 : (2 : Int) ^ 64 = 18446744073709551616 := by norm_num
  rw [p63] at h0 h1 ⊢
  rw [p64]
  rw [Int.emod_eq_of_lt (by omega) (by omega)]
  omega

/-- Decomposition inverts an in-range composition. -/
theorem decompose_compose (a w c : Nat) (e : Int)
    (ha : a < 2 ^ 41) (hw : w ≤ 1023) (hc : c ≤ 4095)
    (he0 : -(2 ^ 62) ≤ e) (he1 : e < 2 ^ 62) :
    decompose_snowflake ((a * 2 ^ 22 + w * 2 ^ 12 + c : Nat) : Int) e =
      .ok { timestamp := (a : Int) + e, worker_id := w, sequence := c } := by
  unfold decompose_snowflake
  rw [if_neg (not_lt.mpr (Int.natCast_nonneg _))]
  rw [Int.toNat_natCast]
  have p22 : (2 : Nat) ^ 22 = 4194304 := by norm_num
  have p12 : (2 : Nat) ^ 12 = 4096 := by norm_num
  have h22 : (a * 2 ^ 22 + w * 2 ^ 12 + c) >>> 22 = a := by
    rw [Nat.shiftRight_eq_div_pow, p22, p12]
    omega
  have h12 : ((a * 2 ^ 22 + w * 2 ^ 12 + c) >>> 12) &&& 0x3FF = w := by
    rw [Nat.shiftRight_eq_div_pow]
    have h3ff : (0x3FF : Nat) = 2 ^ 10 - 1 := by norm_num
    rw [h3ff, Nat.and_pow_two_sub_one_eq_mod]
    have p10 : (2 : Nat) ^ 10 = 1024 := by norm_num
    rw [p22, p12, p10]
    omega
  have hfff : (a * 2 ^ 22 + w * 2 ^ 12 + c) &&& 0xFFF = c := by
    have h4 : (0xFFF : Nat) = 2 ^ 12 - 1 := by norm_num
    rw [h4, Nat.and_pow_two_sub_one_eq_mod, p22, p12]
    omega
  rw [h22, h12, hfff]
  rw [wrap64_eq_self (x := (a : Int) + e) (by
      have : (0 : Int) ≤ (a : Int) := Int.natCast_nonneg _
      have p62 : (2 : Int) ^ 62 = 4611686018427387904 := by norm_num
      have p63 : (2 : Int) ^ 63 = 9223372036854775808 := by norm_num
      omega)
    (by
      have haI : (a : Int) < 2 ^ 41 := by exact_mod_cast ha
      have p41 : (2 : Int) ^ 41 = 2199023255552 := by norm_num
      have p62 : (2 : Int) ^ 62 = 4611686018427387904 := by norm_num
      have p63 : (2 : Int) ^ 63 = 9223372036854775808 := by norm_num
      omega)]

/-- Successful construction, characterised. -/
theorem new_ok_iff (epoch : Int) (w : Nat) (now : Int) (s : SnowflakeState) :
    SnowflakeState.new epoch w (some now) = .ok s ↔
      (w ≤ 1023 ∧ epoch ≤ now ∧
        s = { time_since_epoch := now - epoch, worker_id := w, sequence := 0,
              epoch := epoch, instant_timestamp := now }) := by
  show (if w > 0x3FF then (.error .WorkerIdOutOfRange : Except SnowflakeError SnowflakeState)
      else if now < epoch then .error .EpochInFuture
      else .ok { time_since_epoch := now - epoch, instant_timestamp := now,
                 worker_id := w, epoch := epoch, sequence := 0 }) = .ok s ↔ _
  split_ifs with hw hn
  · simp only [reduceCtorEq, false_iff]
    rintro ⟨h1, -, -⟩
    omega
  · simp only [reduceCtorEq, false_iff]
    rintro ⟨-, h2, -⟩
    omega
  · constructor
    · intro h
      refine ⟨by omega, by omega, ?_⟩
      cases h
      rfl
    · rintro ⟨-, -, rfl⟩
      rfl

theorem new_ok_sequence {epoch : Int} {w : Nat} {reading : Option Int}
    {s : SnowflakeState} (h : SnowflakeState.new epoch w reading = .ok s) :
    s.sequence = 0 := by
  cases reading with
  | none =>
    unfold SnowflakeState.new at h
    split_ifs at h
  | some now =>
    rw [new_ok_iff] at h
    rw [h.2.2]

/-- Invariant: any reachable state stores a sequence value of at most 4096. -/
theorem reachable_sequence_le {s : SnowflakeState} (h : Reachable s) :
    s.sequence ≤ 4096 := by
  cases h with
  | constructed e w r s hnew => rw [new_ok_sequence hnew]; omega
  | step s t t' _ => exact generateId_sequence_le s t t'

/-- Composed identifiers compare strictly when the timestamp grows, or when
it is unchanged and the sequence grows. -/
theorem to_i64_lt_of_fields {s1 s2 : SnowflakeState}
    (h10 : 0 ≤ s1.time_since_epoch) (h11 : s1.time_since_epoch < 2 ^ 41)
    (h20 : 0 ≤ s2.time_since_epoch) (h21 : s2.time_since_epoch < 2 ^ 41)
    (hw1 : s1.worker_id ≤ 1023) (hww : s1.worker_id = s2.worker_id)
    (hc1 : s1.sequence ≤ 4095) (hc2 : s2.sequence ≤ 4095)
    (h : s1.time_since_epoch < s2.time_since_epoch ∨
         (s1.time_since_epoch = s2.time_since_epoch ∧ s1.sequence < s2.sequence)) :
    s1.to_i64 < s2.to_i64 := by
  rw [to_i64_eq_of_bounds s1 h10 h11 hw1 hc1,
      to_i64_eq_of_bounds s2 h20 h21 (hww ▸ hw1) hc2]
  have key : s1.time_since_epoch.toNat * 2 ^ 22 + s1.worker_id * 2 ^ 12 + s1.sequence
      < s2.time_since_epoch.toNat * 2 ^ 22 + s2.worker_id * 2 ^ 12 + s2.sequence := by
    apply composeNat_lt hw1 hc1
    rcases h with h | ⟨heq, hlt⟩
    · left
      omega
    · right
      exact ⟨by omega, hww, hlt⟩
  exact_mod_cast key

/-! ### The claims -/

/-- C3: `generate_id` follows exactly the claimed step function: same
millisecond with `sequence > 4095` blocks, re-reads the clock, stores the new
reading with the sequence reset; same millisecond otherwise leaves
`last_timestamp` unchanged; otherwise the current reading is stored and the
sequence reset; the identifier is then composed from
`(last_timestamp, worker_id, sequence)` and `sequence` incremented by 1. -/
theorem generateId_follows_spec_step (s : SnowflakeState) (t t' : Int) :
    s.generateId t t' = generateIdSpecModel s t t' := by
  unfold SnowflakeState.generateId generateIdSpecModel
  by_cases e : s.time_since_epoch = t
  · by_cases r : 4095 < s.sequence
    · have hr : s.sequence > 0xFFF := r
      simp [e, hr]
    · have hr : ¬ s.sequence > 0xFFF := by omega
      simp only [e, hr, if_true, if_false, ite_true, ite_false, eq_self_iff_true]
      rw [← e]
  · simp [e]

/-- C4: every identifier returned by `generate_id` is non-negative (sign bit
0), below `2 ^ 63`, and equals the masked 64-bit composition
`(last_timestamp << 22) | (worker_id << 12) | sequence` taken at the moment
of generation (the updated `last_timestamp`, the pre-increment `sequence`) —
for every state, in particular when `last_timestamp` does not fit in 41
bits. -/
theorem generated_id_is_masked_composition (s : SnowflakeState) (t t' : Int) :
    0 ≤ (s.generateId t t').1 ∧ (s.generateId t t').1 < 2 ^ 63 ∧
    (s.generateId t t').1 =
      SnowflakeState.to_i64
        { (s.generateId t t').2 with
          sequence := (s.generateId t t').2.sequence - 1 } := by
  obtain ⟨a, c, -, hc, heq⟩ := generateId_shape s t t'
  rw [heq]
  refine ⟨to_i64_nonneg _, to_i64_lt_two_pow _, ?_⟩
  dsimp only
  rw [Nat.add_sub_cancel]

/-- C6: construction validates the worker id first (`WorkerIdOutOfRange`
exactly when `worker_id > 1023`), then the epoch against the wall-clock
reading (`EpochInFuture` exactly when, the worker id being in range,
`epoch > now`; `epoch = now` succeeds), and on success stores
`last_timestamp = now - epoch` and `sequence = 0`. -/
theorem construction_validates (epoch : Int) (w : Nat) (now : Int) :
    (SnowflakeState.new epoch w (some now) = .error .WorkerIdOutOfRange ↔
      1023 < w) ∧
    (SnowflakeState.new epoch w (some now) = .error .EpochInFuture ↔
      (w ≤ 1023 ∧ now < epoch)) ∧
    (∀ s, SnowflakeState.new epoch w (some now) = .ok s ↔
      (w ≤ 1023 ∧ epoch ≤ now ∧
        s = { time_since_epoch := now - epoch, worker_id := w, sequence := 0,
              epoch := epoch, instant_timestamp := now })) := by
  refine ⟨?_, ?_, new_ok_iff epoch w now⟩
  · show (if w > 0x3FF then (.error .WorkerIdOutOfRange : Except SnowflakeError SnowflakeState)
        else if now < epoch then .error .EpochInFuture
        else .ok { time_since_epoch := now - epoch, instant_timestamp := now,
                   worker_id := w, epoch := epoch, sequence := 0 })
        = .error .WorkerIdOutOfRange ↔ 1023 < w
    split_ifs with hw hn <;> simp <;> omega
  · show (if w > 0x3FF then (.error .WorkerIdOutOfRange : Except SnowflakeError SnowflakeState)
        else if now < epoch then .error .EpochInFuture
        else .ok { time_since_epoch := now - epoch, instant_timestamp := now,
                   worker_id := w, epoch := epoch, sequence := 0 })
        = .error .EpochInFuture ↔ (w ≤ 1023 ∧ now < epoch)
    split_ifs with hw hn <;> simp <;> omega

/-- C7: decomposition fails with the sign-bit error exactly on negative
identifiers; on non-negative identifiers it returns
`timestamp = (id >> 22) + epoch` (`i64` addition), `worker_id = (id >> 12) & 0x3FF`
and `sequence = id & 0xFFF`, equivalently the plain quotient/remainder form. -/
theorem decompose_characterisation (id epoch : Int) :
    (decompose_snowflake id epoch = .error .SignBitError ↔ id < 0) ∧
    (0 ≤ id → decompose_snowflake id epoch =
      .ok { timestamp := wrap64 ((id.toNat >>> 22 : Nat) + epoch),
            worker_id := (id.toNat >>> 12) &&& 0x3FF,
            sequence := id.toNat &&& 0xFFF }) ∧
    (0 ≤ id → decompose_snowflake id epoch =
      .ok { timestamp := wrap64 (id / 2 ^ 22 + epoch),
            worker_id := ((id / 2 ^ 12) % 2 ^ 10).toNat,
            sequence := (id % 2 ^ 12).toNat }) := by
  refine ⟨?_, ?_, ?_⟩
  · unfold decompose_snowflake
    split_ifs with hneg <;> simp [hneg]
  · intro h
    unfold decompose_snowflake
    rw [if_neg (by omega)]
  · intro h
    unfold decompose_snowflake
    rw [if_neg (by omega)]
    have e1 : ((id.toNat >>> 22 : Nat) : Int) = id / 2 ^ 22 := by
      rw [Nat.shiftRight_eq_div_pow]
      omega
    have e2 : (id.toNat >>> 12) &&& 0x3FF = ((id / 2 ^ 12) % 2 ^ 10).toNat := by
      rw [Nat.shiftRight_eq_div_pow]
      have h3ff : (0x3FF : Nat) = 2 ^ 10 - 1 := by norm_num
      rw [h3ff, Nat.and_pow_two_sub_one_eq_mod]
      omega
    have e3 : id.toNat &&& 0xFFF = (id % 2 ^ 12).toNat := by
      have h4 : (0xFFF : Nat) = 2 ^ 12 - 1 := by norm_num
      rw [h4, Nat.and_pow_two_sub_one_eq_mod]
      omega
    rw [e1, e2, e3]

/-- C7 witness: the quotient/remainder characterisation evaluated at the
identifier `(4 << 22) | (1 << 12) | 2` with epoch 5. -/
theorem decompose_characterisation_witness :
    decompose_snowflake 16781314 5 =
      .ok { timestamp := wrap64 ((16781314 : Int) / 2 ^ 22 + 5),
            worker_id := (((16781314 : Int) / 2 ^ 12) % 2 ^ 10).toNat,
            sequence := ((16781314 : Int) % 2 ^ 12).toNat } :=
  (decompose_characterisation 16781314 5).2.2 (by decide)

/-- C9: the three synchronization adapters expose the identical contract —
`generate_id` passes through to the core step (the thread-shared variant
wraps it in `Ok`, or surfaces `PoisonError` on a poisoned lock) and
`decompose` passes through to the decoder with the generator's epoch; they
differ only in how exclusive access is obtained. -/
theorem adapters_share_contract (s : SnowflakeState) (t t' id : Int) :
    singleOwnerGenerateId s t t' = s.generateId t t' ∧
    taskSharedGenerateId s t t' = s.generateId t t' ∧
    threadSharedGenerateId false s t t' = .ok (s.generateId t t') ∧
    threadSharedGenerateId true s t t' = .error .PoisonError ∧
    adapterDecompose s id = decompose_snowflake id s.epoch :=
  ⟨rfl, rfl, rfl, rfl, rfl⟩

/-- C10: on any reachable state the stored sequence is at most 4096 (so the
`u16` increment `sequence += 1` cannot overflow and `generate_id` cannot
panic), and the sequence value composed into the returned identifier is some
`c ≤ 4095` occupying exactly the low 12 bits — it never bleeds into the
worker-id bits. -/
theorem generate_id_sequence_safety (s : SnowflakeState) (hs : Reachable s)
    (t t' : Int) :
    s.sequence ≤ 4096 ∧
    ∃ c : Nat, c ≤ 4095 ∧ (s.generateId t t').2.sequence = c + 1 ∧
      (s.generateId t t').1.toNat &&& 0xFFF = c := by
  refine ⟨reachable_sequence_le hs, ?_⟩
  obtain ⟨a, c, -, hc, heq⟩ := generateId_shape s t t'
  refine ⟨c, hc, ?_, ?_⟩
  · rw [heq]
  · rw [heq]
    exact to_i64_low_bits _ hc

/-- C10 witness: the safety statement evaluated on the freshly constructed
demo state. -/
theorem generate_id_sequence_safety_witness :
    initialDemoState.sequence ≤ 4096 ∧
    ∃ c : Nat, c ≤ 4095 ∧ (initialDemoState.generateId 0 0).2.sequence = c + 1 ∧
      (initialDemoState.generateId 0 0).1.toNat &&& 0xFFF = c :=
  generate_id_sequence_safety initialDemoState
    (Reachable.constructed 0 0 (some 0) initialDemoState (by decide)) 0 0

theorem genStepN_reachable (n : Nat) : Reachable (genStepN n) := by
  induction n with
  | zero => exact Reachable.constructed 0 0 (some 0) initialDemoState (by decide)
  | succ n ih => exact Reachable.step _ 0 0 ih

theorem genStepN_closed_form (n : Nat) (hn : n ≤ 4096) :
    (genStepN n).time_since_epoch = 0 ∧ (genStepN n).sequence = n := by
  induction n with
  | zero => exact ⟨rfl, rfl⟩
  | succ n ih =>
    obtain ⟨hts, hseq⟩ := ih (by omega)
    show (genStep (genStepN n)).time_since_epoch = 0 ∧
      (genStep (genStepN n)).sequence = n + 1
    unfold genStep
    rw [generateId_same (genStepN n) 0 0 hts (by omega)]
    refine ⟨hts, ?_⟩
    show (genStepN n).sequence + 1 = n + 1
    omega

/-- C8 counterexample: after exactly 4096 calls inside the construction
millisecond the *stored* sequence field of the reachable state is 4096 — not
at most 4095 as claimed; the value persists between calls rather than being
observed only mid-computation. -/
theorem stored_sequence_reaches_4096 :
    Reachable (genStepN 4096) ∧ 4095 < (genStepN 4096).sequence := by
  refine ⟨genStepN_reachable 4096, ?_⟩
  have h := (genStepN_closed_form 4096 (by omega)).2
  omega

/-- C8 (amended): every reachable state stores `0 ≤ sequence ≤ 4096`; the
value 4096 persists in the state after the 4096th identifier of a
millisecond, and at the next call in that same millisecond it triggers
rollover (the call stores the post-sleep reading and leaves the sequence at
1, having composed sequence 0). -/
theorem reachable_sequence_invariant (s : SnowflakeState) (hs : Reachable s) :
    s.sequence ≤ 4096 ∧
    (s.sequence = 4096 → ∀ t t', s.time_since_epoch = t →
      (s.generateId t t').2.sequence = 1 ∧
      (s.generateId t t').2.time_since_epoch = t') := by
  refine ⟨reachable_sequence_le hs, ?_⟩
  intro h4096 t t' ht
  rw [generateId_rollover s t t' ht (by omega)]
  exact ⟨rfl, rfl⟩

/-- C8 witness: the amended invariant evaluated on the state reached after
4096 same-millisecond calls, whose stored sequence is exactly 4096. -/
theorem reachable_sequence_invariant_witness :
    (genStepN 4096).sequence ≤ 4096 ∧
    ((genStepN 4096).sequence = 4096 → ∀ t t',
      (genStepN 4096).time_since_epoch = t →
      ((genStepN 4096).generateId t t').2.sequence = 1 ∧
      ((genStepN 4096).generateId t t').2.time_since_epoch = t') :=
  reachable_sequence_invariant (genStepN 4096) (genStepN_reachable 4096)

/-- A state holding last_timestamp 5 and sequence 3 for worker 1, used to
exercise a regressed clock reading. -/
def regressDemoState : SnowflakeState :=
  { time_since_epoch := 5, worker_id := 1, sequence := 3, epoch := 0,
    instant_timestamp := 0 }

/-- C5 counterexample: with `last_timestamp = 5` and `sequence = 3`, a
regressed reading 4 makes `generate_id` take the not-equal branch: it moves
`last_timestamp` backward to 4 and resets the sequence (stored value 1),
refuting the claim that `last_timestamp` is left unchanged and the sequence
keeps incrementing in the same millisecond bucket. -/
theorem clock_regression_counterexample :
    (regressDemoState.generateId 4 4).2.time_since_epoch = 4 ∧
    (regressDemoState.generateId 4 4).2.sequence = 1 ∧
    ¬ ((regressDemoState.generateId 4 4).2.time_since_epoch
          = regressDemoState.time_since_epoch ∧
       (regressDemoState.generateId 4 4).2.sequence
          = regressDemoState.sequence + 1) := by
  decide

/-- C5 (amended): a regressed reading (`current < last_timestamp`) is handled
by the not-equal branch: `last_timestamp` is set to the regressed reading and
the sequence is reset — the identifier is composed from the regressed
timestamp with sequence 0 and the stored sequence becomes 1. -/
theorem clock_regression_behavior (s : SnowflakeState) (t t' : Int)
    (h : t < s.time_since_epoch) :
    s.generateId t t' =
      (({ s with time_since_epoch := t, sequence := 0 } : SnowflakeState).to_i64,
       { s with time_since_epoch := t, sequence := 1 }) :=
  generateId_advance s t t' (by omega)

/-- C2: round-trip — decomposing an identifier just produced by
`generate_id` with the generator's epoch recovers the generator's worker id,
the exact sequence value composed into the identifier (the stored sequence
minus 1), and the generator's updated `last_timestamp` plus the epoch. -/
theorem generate_decompose_roundtrip (s : SnowflakeState) (t t' e : Int)
    (hw : s.worker_id ≤ 1023)
    (hs0 : 0 ≤ s.time_since_epoch) (hs1 : s.time_since_epoch < 2 ^ 41)
    (ht0 : 0 ≤ t) (ht1 : t < 2 ^ 41) (hu0 : 0 ≤ t') (hu1 : t' < 2 ^ 41)
    (he0 : -(2 ^ 62) ≤ e) (he1 : e < 2 ^ 62) :
    decompose_snowflake (s.generateId t t').1 e =
      .ok { timestamp := (s.generateId t t').2.time_since_epoch + e,
            worker_id := s.worker_id,
            sequence := (s.generateId t t').2.sequence - 1 } := by
  obtain ⟨a, c, hmem, hc, heq⟩ := generateId_shape s t t'
  have ha0 : 0 ≤ a := by rcases hmem with rfl | rfl | rfl <;> assumption
  have ha1 : a < 2 ^ 41 := by rcases hmem with rfl | rfl | rfl <;> assumption
  have haN : a.toNat < 2 ^ 41 := by omega
  rw [heq]
  dsimp only
  rw [to_i64_eq_of_bounds
    { time_since_epoch := a, worker_id := s.worker_id, sequence := c,
      epoch := s.epoch, instant_timestamp := s.instant_timestamp } ha0 ha1 hw hc]
  dsimp only
  rw [decompose_compose a.toNat s.worker_id c e haN hw hc he0 he1]
  rw [Int.toNat_of_nonneg ha0, Nat.add_sub_cancel]

/-- C2 witness: the round trip evaluated on the freshly constructed demo
state with clock reading 3 and epoch 0. -/
theorem generate_decompose_roundtrip_witness :
    decompose_snowflake (initialDemoState.generateId 3 3).1 0 =
      .ok { timestamp := (initialDemoState.generateId 3 3).2.time_since_epoch + 0,
            worker_id := initialDemoState.worker_id,
            sequence := (initialDemoState.generateId 3 3).2.sequence - 1 } :=
  generate_decompose_roundtrip initialDemoState 3 3 0 (by decide) (by decide)
    (by decide) (by decide) (by decide) (by decide) (by decide) (by decide)
    (by decide)

/-- A state that has already issued 4096 identifiers in millisecond 0
(worker 0, epoch 0): stored sequence 4095 before the next call. -/
def burstDemoState : SnowflakeState :=
  { time_since_epoch := 0, worker_id := 0, sequence := 4095, epoch := 0,
    instant_timestamp := 0 }

/-- C1 counterexample: with worker id 0 ≤ 1023, elapsed time 0 < 2^41 and
the non-decreasing (constant) reading sequence 0, 0, 0, 0, the first call
returns 4095 and the second call — whose rollover re-read is still 0 —
returns 0: the identifiers are not strictly increasing.  Merely
non-decreasing readings do not suffice; the post-sleep re-read must strictly
advance. -/
theorem sequential_ids_not_increasing_under_stuck_clock :
    (burstDemoState.generateId 0 0).1 = 4095 ∧
    ((burstDemoState.generateId 0 0).2.generateId 0 0).1 = 0 ∧
    ¬ ((burstDemoState.generateId 0 0).1
        < ((burstDemoState.generateId 0 0).2.generateId 0 0).1) := by
  decide

/-- C1 (amended): two sequential calls on any state with
`worker_id ≤ 1023` and elapsed milliseconds in `[0, 2^41)` return strictly
increasing identifiers, provided the clock readings are non-decreasing —
`t1 ≤ t2` across the calls and, whenever the first call performs the
rollover sleep, its post-sleep re-read precedes the second call's reading
(`t1' ≤ t2`) — and every reading actually taken after a 1 ms rollover sleep
strictly exceeds the pre-sleep reading (`t1 < t1'` when the first call
rolls over, `t2 < t2'` when the second does).  Same-millisecond sequential
calls without rollover (`t1 = t2`) are covered: there the sleep-related
hypotheses are vacuous. -/
theorem sequential_ids_strictly_increase (s : SnowflakeState)
    (t1 t1' t2 t2' : Int) (hw : s.worker_id ≤ 1023)
    (hs0 : 0 ≤ s.time_since_epoch) (hs41 : s.time_since_epoch < 2 ^ 41)
    (h0 : 0 ≤ t1) (h12 : t1 ≤ t2) (h241 : t2 < 2 ^ 41) (h2p41 : t2' < 2 ^ 41)
    (hr1 : s.time_since_epoch = t1 → 4095 < s.sequence → t1 < t1' ∧ t1' ≤ t2)
    (hr2 : (s.generateId t1 t1').2.time_since_epoch = t2 →
      4095 < (s.generateId t1 t1').2.sequence → t2 < t2') :
    (s.generateId t1 t1').1 < ((s.generateId t1 t1').2.generateId t2 t2').1 := by
  have ht141 : t1 < 2 ^ 41 := by omega
  have hcn : 0 ≤ t2 := by omega
  have z04 : (0 : Nat) ≤ 4095 := by omega
  have o14 : (1 : Nat) ≤ 4095 := by omega
  have z01 : (0 : Nat) < 1 := by omega
  by_cases e1 : s.time_since_epoch = t1
  · by_cases r1 : 4095 < s.sequence
    · obtain ⟨hx, hy⟩ := hr1 e1 r1
      have ha : 0 ≤ t1' := by omega
      have hb : t1' < 2 ^ 41 := by omega
      rw [generateId_rollover s t1 t1' e1 r1]
      dsimp only
      by_cases e2 : t1' = t2
      · rw [generateId_same
          ({ s with time_since_epoch := t1', sequence := 1 } : SnowflakeState)
          t2 t2' e2 o14]
        dsimp only
        exact to_i64_lt_of_fields ha hb ha hb hw rfl z04 o14
          (Or.inr ⟨rfl, z01⟩)
      · rw [generateId_advance
          ({ s with time_since_epoch := t1', sequence := 1 } : SnowflakeState)
          t2 t2' e2]
        dsimp only
        exact to_i64_lt_of_fields ha hb hcn h241 hw rfl z04 z04
          (Or.inl (show t1' < t2 by omega))
    · have hcs : s.sequence ≤ 4095 := by omega
      have hstate : (s.generateId t1 t1').2
          = { s with sequence := s.sequence + 1 } := by
        rw [generateId_same s t1 t1' e1 hcs]
      rw [hstate] at hr2
      rw [generateId_same s t1 t1' e1 hcs]
      dsimp only
      by_cases e2 : s.time_since_epoch = t2
      · by_cases r2 : 4095 < s.sequence + 1
        · have ht2' : t2 < t2' := hr2 e2 r2
          have h2p0 : 0 ≤ t2' := by omega
          rw [generateId_rollover
            ({ s with sequence := s.sequence + 1 } : SnowflakeState)
            t2 t2' e2 r2]
          dsimp only
          exact to_i64_lt_of_fields hs0 hs41 h2p0 h2p41 hw rfl hcs z04
            (Or.inl (show s.time_since_epoch < t2' by omega))
        · rw [generateId_same
            ({ s with sequence := s.sequence + 1 } : SnowflakeState)
            t2 t2' e2 (by show s.sequence + 1 ≤ 4095; omega)]
          dsimp only
          exact to_i64_lt_of_fields hs0 hs41 hs0 hs41 hw rfl hcs
            (show s.sequence + 1 ≤ 4095 by omega)
            (Or.inr ⟨rfl, show s.sequence < s.sequence + 1 by omega⟩)
      · rw [generateId_advance
          ({ s with sequence := s.sequence + 1 } : SnowflakeState) t2 t2' e2]
        dsimp only
        exact to_i64_lt_of_fields hs0 hs41 hcn h241 hw rfl hcs z04
          (Or.inl (show s.time_since_epoch < t2 by omega))
  · rw [generateId_advance s t1 t1' e1]
    dsimp only
    by_cases e2 : t1 = t2
    · rw [generateId_same
        ({ s with time_since_epoch := t1, sequence := 1 } : SnowflakeState)
        t2 t2' e2 o14]
      dsimp only
      exact to_i64_lt_of_fields h0 ht141 h0 ht141 hw rfl z04 o14
        (Or.inr ⟨rfl, z01⟩)
    · rw [generateId_advance
        ({ s with time_since_epoch := t1, sequence := 1 } : SnowflakeState)
        t2 t2' e2]
      dsimp only
      exact to_i64_lt_of_fields h0 ht141 hcn h241 hw rfl z04 z04
        (Or.inl (show t1 < t2 by omega))

/-- C1 witness: the amended monotonicity at the spec's concrete
same-millisecond scenario — worker 0, epoch 0, all four readings 0: the
first call returns the identifier composed from sequence 0 and the
immediate second call the one composed from sequence 1, strictly larger;
no rollover happens, so the sleep-related hypotheses hold vacuously. -/
theorem sequential_ids_strictly_increase_witness :
    (initialDemoState.generateId 0 0).1
      < ((initialDemoState.generateId 0 0).2.generateId 0 0).1 :=
  sequential_ids_strictly_increase initialDemoState 0 0 0 0 (by decide)
    (by decide) (by decide) (by decide) (by decide) (by decide) (by decide)
    (by decide) (by decide)

/-- C5 witness: the amended behavior evaluated at the demo state with the
regressed reading 4. -/
theorem clock_regression_behavior_witness :
    (4 : Int) < regressDemoState.time_since_epoch ∧
    regressDemoState.generateId 4 4 =
      (({ regressDemoState with time_since_epoch := 4, sequence := 0 }
          : SnowflakeState).to_i64,
       { regressDemoState with time_since_epoch := 4, sequence := 1 }) :=
  ⟨by decide, clock_regression_behavior regressDemoState 4 4 (by decide)⟩
